import Mathlib

/-!
Verification of the ReefBuddy store-asset scripts.

The development shallowly embeds the two Python scripts of the repository:

* `generate-store-assets.py` — a deterministic drawing pipeline (app icon and
  four mock screenshot views) over PIL.  A canvas is modelled as its pixel
  dimensions plus the ordered list of drawing operations issued on it; the
  font environment (which truetype paths load, and the text bounding boxes
  the loaded font reports) is an explicit parameter.
* `resize-screenshots.py` — the screenshot resizer.  The filesystem and PIL
  image I/O are modelled by an explicit environment: whether the input path
  exists, whether it decodes (and to which pixel size), and what happens at
  each output path (the per-target try-block either raises, round-trips
  faithfully, or reopens to a corrupted size).

Numeric conventions: Python ints are `Int`; Python `//` is `Int.fdiv`
(floor division); `int(x * f)` for a non-negative float literal `f` is
modelled exactly as the rational floor `(x * num).fdiv den` with
`f = num / den` (all the fractions in the source are exact decimals and all
the products are non-negative, where `int` truncation coincides with floor).
-/

namespace GenerateStoreAssets

/-- RGB colour triple, modelling a PIL fill colour. -/
abbrev Color := Nat × Nat × Nat

/-- The `COLORS` dict of `generate-store-assets.py`. -/
def COLORS (name : String) : Color :=
  if name = "white" then (255, 255, 255)
  else if name = "black" then (0, 0, 0)
  else if name = "aquamarine" then (0, 255, 209)
  else if name = "orange" then (255, 61, 0)
  else if name = "gray" then (128, 128, 128)
  else if name = "light_gray" then (240, 240, 240)
  else (0, 0, 0)

/-- The `SCREENSHOT_SIZES` dict of `generate-store-assets.py`
(insertion order of the Python dict). -/
def SCREENSHOT_SIZES : List (String × Int × Int) :=
  [("iphone_67", 1290, 2796),
   ("iphone_65", 1242, 2688),
   ("iphone_55", 1242, 2208),
   ("ipad_129", 2048, 2732),
   ("ipad_11", 1668, 2388)]

/-- `int(x * (num / den))` for non-negative products: exact rational floor. -/
def intMulFrac (x num den : Int) : Int := Int.fdiv (x * num) den

/-- A PIL font handle: either a loaded truetype font or the built-in default. -/
inductive PFont
  | truetype (path : String) (size : Int)
  | default
  deriving DecidableEq

/-- A text bounding box as returned by `draw.textbbox((0, 0), text, font)`. -/
structure BBox where
  x0 : Int
  y0 : Int
  x1 : Int
  y1 : Int
  deriving DecidableEq

/-- The font environment: which truetype paths `ImageFont.truetype`
successfully loads, and the bounding box the drawing backend reports for a
given font and text. -/
structure FontEnv where
  loads : String → Bool
  measure : PFont → String → BBox

/-- `get_font` of `generate-store-assets.py`: the truetype fallback chain.
Every load failure is swallowed; the function always returns a font. -/
def get_font (env : FontEnv) (size : Int) (bold : Bool := false) : PFont :=
  if bold then
    if env.loads "/System/Library/Fonts/Supplemental/Arial Bold.ttf" then
      PFont.truetype "/System/Library/Fonts/Supplemental/Arial Bold.ttf" size
    else if env.loads "/Library/Fonts/Arial Bold.ttf" then
      PFont.truetype "/Library/Fonts/Arial Bold.ttf" size
    else PFont.default
  else
    if env.loads "/System/Library/Fonts/Supplemental/Arial.ttf" then
      PFont.truetype "/System/Library/Fonts/Supplemental/Arial.ttf" size
    else if env.loads "/Library/Fonts/Arial.ttf" then
      PFont.truetype "/Library/Fonts/Arial.ttf" size
    else PFont.default

/-- One drawing operation issued on a canvas. -/
inductive DrawOp
  | rect (x1 y1 x2 y2 : Int) (fill : Color)
  | line (x1 y1 x2 y2 : Int) (fill : Color) (lw : Int)
  | text (x y : Int) (s : String) (font : PFont) (fill : Color)
  deriving DecidableEq

/-- `draw_text_with_shadow`: hard shadow first, then the text on top. -/
def draw_text_with_shadow (x y : Int) (text : String) (font : PFont)
    (text_color shadow_color : Color) (shadow_dx shadow_dy : Int) : List DrawOp :=
  [DrawOp.text (x + shadow_dx) (y + shadow_dy) text font shadow_color,
   DrawOp.text x y text font text_color]

/-- `draw_border`: four edge rectangles (top, bottom, left, right). -/
def draw_border (x1 y1 x2 y2 width : Int) (color : Color) : List DrawOp :=
  [DrawOp.rect x1 y1 x2 (y1 + width) color,
   DrawOp.rect x1 (y2 - width) x2 y2 color,
   DrawOp.rect x1 y1 (x1 + width) y2 color,
   DrawOp.rect (x2 - width) y1 x2 y2 color]

/-- A PIL canvas: `Image.new('RGB', (width, height), background)` plus the
ordered drawing operations issued on it.  Drawing never changes the size. -/
structure PImage where
  width : Int
  height : Int
  background : Color
  ops : List DrawOp
  deriving DecidableEq

/-- `create_app_icon` of `generate-store-assets.py`. -/
def create_app_icon (env : FontEnv) : PImage :=
  let size : Int := 1024
  let border_ops := draw_border 0 0 size size (intMulFrac size 3 100) (COLORS "black")
  let font_size := intMulFrac size 45 100
  let font := get_font env font_size true
  let bbox := env.measure font "RB"
  let text_width := bbox.x1 - bbox.x0
  let text_height := bbox.y1 - bbox.y0
  let x := Int.fdiv (size - text_width) 2
  let y := Int.fdiv (size - text_height) 2
  let shadow_offset := intMulFrac size 2 100
  { width := size, height := size, background := COLORS "aquamarine",
    ops := border_ops ++
      draw_text_with_shadow x y "RB" font (COLORS "white") (COLORS "black")
        shadow_offset shadow_offset }

/-- The `tanks` list of `create_screenshot_tank_list`. -/
def tank_list_tanks : List (String × String × String) :=
  [("Reef Tank 1", "125 gal", "Active"),
   ("Nano Reef", "30 gal", "Active"),
   ("Frag Tank", "40 gal", "Inactive")]

/-- The `tabs` list of `create_screenshot_tank_list`. -/
def tank_list_tabs : List String := ["TANKS", "MEASURE", "HISTORY", "SETTINGS"]

/-- `create_screenshot_tank_list` of `generate-store-assets.py`. -/
def create_screenshot_tank_list (env : FontEnv) (width height : Int) : PImage :=
  let status_height := intMulFrac height 6 100
  let header_height := intMulFrac height 12 100
  let header_y := status_height
  let title_font := get_font env (intMulFrac width 8 100) true
  let title := "REEFBUDDY"
  let bbox := env.measure title_font title
  let title_x := intMulFrac width 5 100
  let title_y := header_y + Int.fdiv (header_height - (bbox.y1 - bbox.y0)) 2
  let badge_x := width - intMulFrac width 25 100
  let badge_y := header_y + intMulFrac header_height 30 100
  let badge_w := intMulFrac width 20 100
  let badge_h := intMulFrac header_height 40 100
  let badge_font := get_font env (intMulFrac width 3 100) true
  let content_y := header_y + header_height
  let content_height := height - content_y - intMulFrac height 10 100
  let card_spacing := intMulFrac height 3 100
  let card_height := intMulFrac content_height 25 100
  let card_width := width - intMulFrac width 10 100
  let card_x := intMulFrac width 5 100
  let name_font := get_font env (intMulFrac width 5 100) true
  let volume_font := get_font env (intMulFrac width 35 1000)
  let status_font := get_font env (intMulFrac width 25 1000) true
  let card_ops := tank_list_tanks.enum.flatMap (fun it =>
    let i : Int := it.1
    let name := it.2.1
    let volume := it.2.2.1
    let status := it.2.2.2
    let card_y := content_y + (card_height + card_spacing) * i + intMulFrac height 2 100
    let shadow_offset : Int := 5
    [DrawOp.rect (card_x + shadow_offset) (card_y + shadow_offset)
       (card_x + card_width + shadow_offset) (card_y + card_height + shadow_offset)
       (COLORS "black"),
     DrawOp.rect card_x card_y (card_x + card_width) (card_y + card_height)
       (COLORS "white")] ++
    draw_border card_x card_y (card_x + card_width) (card_y + card_height) 3
      (COLORS "black") ++
    [DrawOp.text (card_x + 20) (card_y + 15) name name_font (COLORS "black"),
     DrawOp.text (card_x + 20) (card_y + 50) volume volume_font (COLORS "gray")] ++
    (if status = "Active" then
      let status_x := card_x + card_width - intMulFrac width 15 100
      let status_y := card_y + 15
      let status_w := intMulFrac width 12 100
      let status_h := intMulFrac card_height 25 100
      [DrawOp.rect status_x status_y (status_x + status_w) (status_y + status_h)
         (COLORS "aquamarine")] ++
      draw_border status_x status_y (status_x + status_w) (status_y + status_h) 2
        (COLORS "black") ++
      [DrawOp.text (status_x + 5) (status_y + 3) "ACTIVE" status_font (COLORS "black")]
    else []))
  let tab_y := height - intMulFrac height 10 100
  let tab_width := Int.fdiv width 4
  let tab_font := get_font env (intMulFrac width 25 1000) true
  let tab_ops := tank_list_tabs.enum.flatMap (fun it =>
    let i : Int := it.1
    let tab := it.2
    let tab_x := i * tab_width
    (if it.1 = 0 then
      [DrawOp.rect tab_x tab_y (tab_x + tab_width) height (COLORS "aquamarine")]
    else []) ++
    [DrawOp.text (tab_x + Int.fdiv tab_width 4) (tab_y + 10) tab tab_font
       (COLORS "black")])
  { width := width, height := height, background := COLORS "white",
    ops :=
      [DrawOp.rect 0 0 width status_height (COLORS "white"),
       DrawOp.rect 0 header_y width (header_y + header_height) (COLORS "white"),
       DrawOp.text title_x title_y title title_font (COLORS "black"),
       DrawOp.rect badge_x badge_y (badge_x + badge_w) (badge_y + badge_h)
         (COLORS "aquamarine")] ++
      draw_border badge_x badge_y (badge_x + badge_w) (badge_y + badge_h) 3
        (COLORS "black") ++
      [DrawOp.text (badge_x + 10) (badge_y + 5) "FREE" badge_font (COLORS "black")] ++
      card_ops ++
      [DrawOp.rect 0 tab_y width height (COLORS "white")] ++
      draw_border 0 tab_y width height 3 (COLORS "black") ++
      tab_ops }

/-- The `params` list of `create_screenshot_analysis`. -/
def analysis_params : List (String × String × String × Color) :=
  [("pH", "8.2", "✓", COLORS "aquamarine"),
   ("Alkalinity", "8.5 dKH", "✓", COLORS "aquamarine"),
   ("Calcium", "420 ppm", "✓", COLORS "aquamarine"),
   ("Nitrate", "5 ppm", "⚠", COLORS "orange")]

/-- `create_screenshot_analysis` of `generate-store-assets.py`. -/
def create_screenshot_analysis (env : FontEnv) (width height : Int) : PImage :=
  let status_height := intMulFrac height 6 100
  let header_height := intMulFrac height 10 100
  let header_y := status_height
  let back_font := get_font env (intMulFrac width 4 100) true
  let title_font := get_font env (intMulFrac width 6 100) true
  let title := "AI ANALYSIS"
  let bbox := env.measure title_font title
  let title_x := Int.fdiv (width - (bbox.x1 - bbox.x0)) 2
  let content_y := header_y + header_height
  let scroll_y0 := content_y
  let grid_title_font := get_font env (intMulFrac width 5 100) true
  let scroll_y1 := scroll_y0 + intMulFrac height 8 100
  let card_w := intMulFrac width 42 100
  let card_h := intMulFrac height 12 100
  let card_spacing := intMulFrac width 3 100
  let name_font := get_font env (intMulFrac width 35 1000) true
  let value_font := get_font env (intMulFrac width 4 100)
  let status_font := get_font env (intMulFrac width 5 100) true
  let param_ops := analysis_params.enum.flatMap (fun it =>
    let i := it.1
    let pname := it.2.1
    let value := it.2.2.1
    let status := it.2.2.2.1
    let color := it.2.2.2.2
    let row : Int := (i / 2 : Nat)
    let col : Int := (i % 2 : Nat)
    let card_x := intMulFrac width 5 100 + col * (card_w + card_spacing)
    let card_y := scroll_y1 + row * (card_h + card_spacing)
    let shadow_offset : Int := 5
    [DrawOp.rect (card_x + shadow_offset) (card_y + shadow_offset)
       (card_x + card_w + shadow_offset) (card_y + card_h + shadow_offset)
       (COLORS "black"),
     DrawOp.rect card_x card_y (card_x + card_w) (card_y + card_h) (COLORS "white")] ++
    draw_border card_x card_y (card_x + card_w) (card_y + card_h) 3 (COLORS "black") ++
    [DrawOp.text (card_x + 15) (card_y + 10) pname name_font (COLORS "black"),
     DrawOp.text (card_x + 15) (card_y + 40) value value_font (COLORS "gray"),
     DrawOp.text (card_x + card_w - 40) (card_y + 20) status status_font color])
  let scroll_y2 := scroll_y1 + intMulFrac height 30 100
  let scroll_y3 := scroll_y2 + intMulFrac height 8 100
  let rec_card_w := width - intMulFrac width 10 100
  let rec_card_h := intMulFrac height 12 100
  let rec_card_x := intMulFrac width 5 100
  let rec_card_y := scroll_y3
  let shadow_offset : Int := 5
  let rec_font := get_font env (intMulFrac width 35 1000)
  { width := width, height := height, background := COLORS "white",
    ops :=
      [DrawOp.rect 0 header_y width (header_y + header_height) (COLORS "white"),
       DrawOp.text (intMulFrac width 5 100) (header_y + 20) "← BACK" back_font
         (COLORS "black"),
       DrawOp.text title_x (header_y + 15) title title_font (COLORS "black"),
       DrawOp.text (intMulFrac width 5 100) (scroll_y0 + 20) "PARAMETER STATUS"
         grid_title_font (COLORS "black")] ++
      param_ops ++
      [DrawOp.text (intMulFrac width 5 100) (scroll_y2 + 20) "RECOMMENDATIONS"
         grid_title_font (COLORS "black"),
       DrawOp.rect (rec_card_x + shadow_offset) (rec_card_y + shadow_offset)
         (rec_card_x + rec_card_w + shadow_offset) (rec_card_y + rec_card_h + shadow_offset)
         (COLORS "black"),
       DrawOp.rect rec_card_x rec_card_y (rec_card_x + rec_card_w)
         (rec_card_y + rec_card_h) (COLORS "white")] ++
      draw_border rec_card_x rec_card_y (rec_card_x + rec_card_w)
        (rec_card_y + rec_card_h) 3 (COLORS "black") ++
      [DrawOp.text (rec_card_x + 15) (rec_card_y + 20)
         "• Increase water changes to reduce nitrate" rec_font (COLORS "black")] }

/-- The `params` list of `create_screenshot_measurement`. -/
def measurement_params : List (String × String × String) :=
  [("pH", "8.2", "Target: 8.1-8.4"),
   ("Alkalinity (dKH)", "8.5", "Target: 8-12 dKH"),
   ("Calcium (ppm)", "420", "Target: 400-450 ppm"),
   ("Magnesium (ppm)", "1350", "Target: 1300-1400 ppm")]

/-- `create_screenshot_measurement` of `generate-store-assets.py`. -/
def create_screenshot_measurement (env : FontEnv) (width height : Int) : PImage :=
  let status_height := intMulFrac height 6 100
  let header_height := intMulFrac height 10 100
  let header_y := status_height
  let title_font := get_font env (intMulFrac width 6 100) true
  let title := "ENTER MEASUREMENTS"
  let bbox := env.measure title_font title
  let title_x := Int.fdiv (width - (bbox.x1 - bbox.x0)) 2
  let content_y := header_y + header_height
  let scroll_y := content_y + intMulFrac height 2 100
  let input_h := intMulFrac height 8 100
  let input_w := width - intMulFrac width 10 100
  let input_x := intMulFrac width 5 100
  let input_spacing := intMulFrac height 2 100
  let label_font := get_font env (intMulFrac width 35 1000) true
  let value_font := get_font env (intMulFrac width 4 100)
  let target_font := get_font env (intMulFrac width 25 1000)
  let param_ops := measurement_params.enum.flatMap (fun it =>
    let i : Int := it.1
    let label := it.2.1
    let value := it.2.2.1
    let target := it.2.2.2
    let input_y := scroll_y + i * (input_h + input_spacing)
    let field_y := input_y + intMulFrac height 4 100
    [DrawOp.text input_x input_y label label_font (COLORS "black"),
     DrawOp.rect input_x field_y (input_x + input_w) (field_y + input_h)
       (COLORS "white")] ++
    draw_border input_x field_y (input_x + input_w) (field_y + input_h) 3
      (COLORS "black") ++
    [DrawOp.text (input_x + 15) (field_y + 15) value value_font (COLORS "black"),
     DrawOp.text input_x (field_y + input_h + 5) target target_font (COLORS "gray")])
  let button_y := scroll_y + 4 * (input_h + input_spacing) + intMulFrac height 5 100
  let button_h := intMulFrac height 8 100
  let button_w := width - intMulFrac width 10 100
  let button_x := intMulFrac width 5 100
  let shadow_offset : Int := 5
  let button_font := get_font env (intMulFrac width 45 1000) true
  let button_text := "ANALYZE PARAMETERS"
  let bbox2 := env.measure button_font button_text
  let button_text_x := button_x + Int.fdiv (button_w - (bbox2.x1 - bbox2.x0)) 2
  let button_text_y := button_y + Int.fdiv (button_h - (bbox2.y1 - bbox2.y0)) 2
  { width := width, height := height, background := COLORS "white",
    ops :=
      [DrawOp.rect 0 header_y width (header_y + header_height) (COLORS "white"),
       DrawOp.text title_x (header_y + 15) title title_font (COLORS "black")] ++
      param_ops ++
      [DrawOp.rect (button_x + shadow_offset) (button_y + shadow_offset)
         (button_x + button_w + shadow_offset) (button_y + button_h + shadow_offset)
         (COLORS "black"),
       DrawOp.rect button_x button_y (button_x + button_w) (button_y + button_h)
         (COLORS "aquamarine")] ++
      draw_border button_x button_y (button_x + button_w) (button_y + button_h) 3
        (COLORS "black") ++
      [DrawOp.text button_text_x button_text_y button_text button_font (COLORS "black")] }

/-- The `measurements` list of `create_screenshot_chart`. -/
def chart_measurements : List (String × String) :=
  [("Jan 15, 2024", "pH: 8.2 | Alk: 8.5 | Ca: 420"),
   ("Jan 12, 2024", "pH: 8.1 | Alk: 8.3 | Ca: 415"),
   ("Jan 10, 2024", "pH: 8.3 | Alk: 8.4 | Ca: 425")]

/-- `create_screenshot_chart` of `generate-store-assets.py`. -/
def create_screenshot_chart (env : FontEnv) (width height : Int) : PImage :=
  let status_height := intMulFrac height 6 100
  let header_height := intMulFrac height 10 100
  let header_y := status_height
  let title_font := get_font env (intMulFrac width 6 100) true
  let title := "HISTORY & TRENDS"
  let bbox := env.measure title_font title
  let title_x := Int.fdiv (width - (bbox.x1 - bbox.x0)) 2
  let content_y := header_y + header_height
  let chart_y := content_y + intMulFrac height 3 100
  let chart_h := intMulFrac height 40 100
  let chart_w := width - intMulFrac width 10 100
  let chart_x := intMulFrac width 5 100
  let line_points := (List.range 10).map (fun i =>
    (chart_x + intMulFrac chart_w (i : Int) 9,
     chart_y + chart_h - intMulFrac chart_h (3 + (i : Int) % 3) 10))
  let line_ops := (line_points.zip line_points.tail).map (fun pq =>
    DrawOp.line pq.1.1 pq.1.2 pq.2.1 pq.2.2 (COLORS "black") 4)
  let label_font := get_font env (intMulFrac width 25 1000)
  let list_y := chart_y + chart_h + intMulFrac height 5 100
  let list_title_font := get_font env (intMulFrac width 4 100) true
  let list_y2 := list_y + intMulFrac height 6 100
  let item_h := intMulFrac height 6 100
  let item_spacing := intMulFrac height 2 100
  let date_font := get_font env (intMulFrac width 3 100) true
  let param_font := get_font env (intMulFrac width 25 1000)
  let item_ops := chart_measurements.enum.flatMap (fun it =>
    let i : Int := it.1
    let date := it.2.1
    let params := it.2.2
    let item_y := list_y2 + i * (item_h + item_spacing)
    let item_w := chart_w
    [DrawOp.rect chart_x item_y (chart_x + item_w) (item_y + item_h) (COLORS "white")] ++
    draw_border chart_x item_y (chart_x + item_w) (item_y + item_h) 2 (COLORS "black") ++
    [DrawOp.text (chart_x + 10) (item_y + 10) date date_font (COLORS "black"),
     DrawOp.text (chart_x + 10) (item_y + 35) params param_font (COLORS "gray")])
  { width := width, height := height, background := COLORS "white",
    ops :=
      [DrawOp.rect 0 header_y width (header_y + header_height) (COLORS "white"),
       DrawOp.text title_x (header_y + 15) title title_font (COLORS "black"),
       DrawOp.rect chart_x chart_y (chart_x + chart_w) (chart_y + chart_h)
         (COLORS "white")] ++
      draw_border chart_x chart_y (chart_x + chart_w) (chart_y + chart_h) 3
        (COLORS "black") ++
      line_ops ++
      [DrawOp.text (chart_x + 10) (chart_y + 10) "pH" label_font (COLORS "black"),
       DrawOp.text (chart_x + 10) (chart_y + chart_h - 20) "8.0" label_font
         (COLORS "gray"),
       DrawOp.text (chart_x + chart_w - 50) (chart_y + chart_h - 20) "8.4" label_font
         (COLORS "gray"),
       DrawOp.text chart_x list_y "RECENT MEASUREMENTS" list_title_font
         (COLORS "black")] ++
      item_ops }

end GenerateStoreAssets

namespace ResizeScreenshots

/-- A PIL raster image, abstracted to its pixel dimensions (the resizer's
control flow depends only on sizes, never on pixel content). -/
structure SImage where
  width : Nat
  height : Nat
  deriving DecidableEq

/-- `img.resize((width, height), Image.Resampling.LANCZOS)`: PIL returns a new
image of exactly the requested size; pixel content is abstracted away. -/
def SImage.resize (img : SImage) (w h : Nat) : SImage :=
  { width := w, height := h }

/-- The `SCREENSHOT_SIZES` dict of `resize-screenshots.py`
(insertion order of the Python dict). -/
def SCREENSHOT_SIZES : List (String × Nat × Nat) :=
  [("iphone_67_portrait", 1284, 2778),
   ("iphone_67_landscape", 2778, 1284),
   ("iphone_65_portrait", 1242, 2688),
   ("iphone_65_landscape", 2688, 1242)]

/-- What the filesystem/PIL does for one output path inside the per-target
try-block: some step raises, or the save/reopen round-trips faithfully, or
the written file reopens with a different (corrupted) size. -/
inductive TargetOutcome
  | raise
  | ok
  | corrupt (w h : Nat)
  deriving DecidableEq

/-- The filesystem environment the resizer runs against. -/
structure FsEnv where
  inputExists : String → Bool
  decode : String → Option (Nat × Nat)
  outcomeAt : String → TargetOutcome

/-- Observable actions of one `resize_screenshot` run. -/
inductive Event
  | mkdirParents (dir : String)
  | attempt (path : String)
  | wrote (path : String) (w h : Nat)
  | verified (path : String)
  | warned (path : String) (w h : Nat)
  | errLogged (path : String)
  deriving DecidableEq

/-- The output path `output_dir / f"{size_name}_{view_name}.png"`. -/
def pathOf (dir view_name size_name : String) : String :=
  dir ++ "/" ++ size_name ++ "_" ++ view_name ++ ".png"

/-- The default output directory of `resize_screenshot`. -/
def defaultOutputDir : String := "assets/upload-store/real-screenshots"

/-- The body of the per-target loop of `resize_screenshot`: resize, save,
reopen, compare the reopened size with the target; an exception anywhere in
the try-block is logged and the target is skipped.  Returns the events of
this iteration and the increment to `success_count`. -/
def resize_one (env : FsEnv) (img : SImage) (dir view_name : String)
    (t : String × Nat × Nat) : List Event × Nat :=
  let path := pathOf dir view_name t.1
  let w := t.2.1
  let h := t.2.2
  let resized := SImage.resize img w h
  match env.outcomeAt path with
  | TargetOutcome.raise => ([Event.attempt path, Event.errLogged path], 0)
  | TargetOutcome.ok =>
      if (resized.width, resized.height) = (w, h) then
        ([Event.attempt path, Event.wrote path resized.width resized.height,
          Event.verified path], 1)
      else
        ([Event.attempt path, Event.wrote path resized.width resized.height,
          Event.warned path resized.width resized.height], 0)
  | TargetOutcome.corrupt vw vh =>
      if (vw, vh) = (w, h) then
        ([Event.attempt path, Event.wrote path resized.width resized.height,
          Event.verified path], 1)
      else
        ([Event.attempt path, Event.wrote path resized.width resized.height,
          Event.warned path vw vh], 0)

/-- One step of the fold over `SCREENSHOT_SIZES` in `resize_screenshot`. -/
def foldStep (env : FsEnv) (img : SImage) (dir view_name : String)
    (acc : List Event × Nat) (t : String × Nat × Nat) : List Event × Nat :=
  (acc.1 ++ (resize_one env img dir view_name t).1,
   acc.2 + (resize_one env img dir view_name t).2)

/-- The value of one `resize_screenshot` run: its boolean return value, the
final `success_count`, and the observable events in order. -/
structure ResizeResult where
  success : Bool
  successCount : Nat
  events : List Event
  deriving DecidableEq

/-- `resize_screenshot` of `resize-screenshots.py`.  A missing input or an
undecodable image aborts with `False` before the directory is created or any
target is attempted; otherwise the directory is created and every registered
target is processed, and the result is `success_count == len(SCREENSHOT_SIZES)`. -/
def resize_screenshot (env : FsEnv) (input_path : String)
    (output_dir : Option String := none)
    (view_name : String := "screenshot") : ResizeResult :=
  if env.inputExists input_path = false then
    { success := false, successCount := 0, events := [] }
  else
    match env.decode input_path with
    | none => { success := false, successCount := 0, events := [] }
    | some sz =>
      let img : SImage := { width := sz.1, height := sz.2 }
      let dir := output_dir.getD defaultOutputDir
      let run := SCREENSHOT_SIZES.foldl (foldStep env img dir view_name) ([], 0)
      { success := run.2 == SCREENSHOT_SIZES.length,
        successCount := run.2,
        events := Event.mkdirParents dir :: run.1 }

/-- The value of one `main` run of `resize-screenshots.py`: the resize result
(if the usage check passed) and the process exit code. -/
structure MainResult where
  ran : Option ResizeResult
  exitCode : Nat
  deriving DecidableEq

/-- `main` of `resize-screenshots.py`: usage check, positional-argument
defaulting, and `sys.exit(0 if success else 1)`. -/
def main (env : FsEnv) (argv : List String) : MainResult :=
  if argv.length < 2 then { ran := none, exitCode := 1 }
  else
    let input_file := argv.getD 1 ""
    let view_name := if 2 < argv.length then argv.getD 2 "" else "screenshot"
    let output_dir := if 3 < argv.length then some (argv.getD 3 "") else none
    let r := resize_screenshot env input_file output_dir view_name
    { ran := some r, exitCode := if r.success then 0 else 1 }

end ResizeScreenshots

/-- A concrete font environment in which no truetype font loads and every
bounding box is degenerate; used to instantiate universally quantified
theorems at a concrete point. -/
def trivFontEnv : GenerateStoreAssets.FontEnv :=
  { loads := fun _ => false, measure := fun _ _ => ⟨0, 0, 0, 0⟩ }

/-- A concrete font environment in which exactly the two bold Arial paths
load. -/
def boldFontEnv : GenerateStoreAssets.FontEnv :=
  { loads := fun p =>
      p == "/System/Library/Fonts/Supplemental/Arial Bold.ttf" ||
      p == "/Library/Fonts/Arial Bold.ttf",
    measure := fun _ _ => ⟨0, 0, 10, 10⟩ }

/-- A concrete font environment in which only the second candidate of each
fallback chain loads. -/
def secondOnlyFontEnv : GenerateStoreAssets.FontEnv :=
  { loads := fun p =>
      p == "/Library/Fonts/Arial Bold.ttf" || p == "/Library/Fonts/Arial.ttf",
    measure := fun _ _ => ⟨0, 0, 10, 10⟩ }

/-- A concrete filesystem environment in which the input exists, decodes to
640×480, and every output path round-trips faithfully. -/
def allOkEnv : ResizeScreenshots.FsEnv :=
  { inputExists := fun _ => true, decode := fun _ => some (640, 480),
    outcomeAt := fun _ => ResizeScreenshots.TargetOutcome.ok }

/-- A concrete filesystem environment in which the input path does not
exist. -/
def missingEnv : ResizeScreenshots.FsEnv :=
  { inputExists := fun _ => false, decode := fun _ => none,
    outcomeAt := fun _ => ResizeScreenshots.TargetOutcome.ok }

/-- A concrete filesystem environment in which exactly the default output
path of the `iphone_67_portrait` target raises inside the per-target
try-block and every other output path round-trips faithfully. -/
def oneFailEnv : ResizeScreenshots.FsEnv :=
  { inputExists := fun _ => true, decode := fun _ => some (640, 480),
    outcomeAt := fun p =>
      if p = ResizeScreenshots.pathOf ResizeScreenshots.defaultOutputDir
          "screenshot" "iphone_67_portrait" then
        ResizeScreenshots.TargetOutcome.raise
      else ResizeScreenshots.TargetOutcome.ok }

section GeneratorTheorems

open GenerateStoreAssets

/-- C3 (amended): for every canvas size and font environment, the header band
rectangle drawn by `create_screenshot_tank_list` (its second drawing
operation, after the status-bar rectangle) spans 12% of the canvas height,
while the header band rectangle drawn by `create_screenshot_analysis`,
`create_screenshot_measurement` and `create_screenshot_chart` (their first
drawing operation) spans 10% of the canvas height; each header starts below
the 6% status-bar offset. -/
theorem c3_header_band_heights (env : FontEnv) (width height : Int) :
    (create_screenshot_tank_list env width height).ops.get? 1 =
      some (DrawOp.rect 0 (intMulFrac height 6 100) width
        (intMulFrac height 6 100 + intMulFrac height 12 100) (COLORS "white")) ∧
    (create_screenshot_analysis env width height).ops.get? 0 =
      some (DrawOp.rect 0 (intMulFrac height 6 100) width
        (intMulFrac height 6 100 + intMulFrac height 10 100) (COLORS "white")) ∧
    (create_screenshot_measurement env width height).ops.get? 0 =
      some (DrawOp.rect 0 (intMulFrac height 6 100) width
        (intMulFrac height 6 100 + intMulFrac height 10 100) (COLORS "white")) ∧
    (create_screenshot_chart env width height).ops.get? 0 =
      some (DrawOp.rect 0 (intMulFrac height 6 100) width
        (intMulFrac height 6 100 + intMulFrac height 10 100) (COLORS "white")) :=
  ⟨rfl, rfl, rfl, rfl⟩

/-- C3 counterexample: on a 1000×1000 canvas the analysis view draws its
header band from y = 60 to y = 160, i.e. with height 100 = 10% of the canvas
height, not 12% (which would be 120); so not all four views use a 12%
header. -/
theorem c3_header_counterexample :
    (create_screenshot_analysis trivFontEnv 1000 1000).ops.get? 0 =
      some (DrawOp.rect 0 60 1000 160 (COLORS "white")) ∧
    ¬ ((160 : Int) - 60 = intMulFrac 1000 12 100) :=
  ⟨rfl, by decide⟩

/-- C6: for every device size in the fixed `SCREENSHOT_SIZES` table of
`generate-store-assets.py` and every font environment, each of the four view
functions returns an image whose pixel dimensions exactly equal the requested
(width, height). -/
theorem c6_view_dimensions (env : FontEnv) (name : String) (w h : Int)
    (hmem : (name, w, h) ∈ SCREENSHOT_SIZES) :
    ((create_screenshot_tank_list env w h).width = w ∧
     (create_screenshot_tank_list env w h).height = h) ∧
    ((create_screenshot_analysis env w h).width = w ∧
     (create_screenshot_analysis env w h).height = h) ∧
    ((create_screenshot_measurement env w h).width = w ∧
     (create_screenshot_measurement env w h).height = h) ∧
    ((create_screenshot_chart env w h).width = w ∧
     (create_screenshot_chart env w h).height = h) :=
  ⟨⟨rfl, rfl⟩, ⟨rfl, rfl⟩, ⟨rfl, rfl⟩, ⟨rfl, rfl⟩⟩

/-- C6 witness: the table entry `iphone_67` at 1290×2796. -/
theorem c6_view_dimensions_witness :
    ((create_screenshot_tank_list trivFontEnv 1290 2796).width = 1290 ∧
     (create_screenshot_tank_list trivFontEnv 1290 2796).height = 2796) ∧
    ((create_screenshot_analysis trivFontEnv 1290 2796).width = 1290 ∧
     (create_screenshot_analysis trivFontEnv 1290 2796).height = 2796) ∧
    ((create_screenshot_measurement trivFontEnv 1290 2796).width = 1290 ∧
     (create_screenshot_measurement trivFontEnv 1290 2796).height = 2796) ∧
    ((create_screenshot_chart trivFontEnv 1290 2796).width = 1290 ∧
     (create_screenshot_chart trivFontEnv 1290 2796).height = 2796) :=
  c6_view_dimensions trivFontEnv "iphone_67" 1290 2796 (by simp [SCREENSHOT_SIZES])

/-- C7: the icon renderer returns a 1024×1024 image for every font
environment — the font-loading fallback outcome affects only the drawn
monogram, never the canvas size. -/
theorem c7_icon_dimensions (env : FontEnv) :
    (create_app_icon env).width = 1024 ∧ (create_app_icon env).height = 1024 :=
  ⟨rfl, rfl⟩

/-- C8: rendering any view twice at the same size under the same font
environment produces identical output — each view function is a
deterministic function of its inputs. -/
theorem c8_render_deterministic (env env' : FontEnv) (w h : Int)
    (henv : env = env') :
    create_screenshot_tank_list env w h = create_screenshot_tank_list env' w h ∧
    create_screenshot_analysis env w h = create_screenshot_analysis env' w h ∧
    create_screenshot_measurement env w h = create_screenshot_measurement env' w h ∧
    create_screenshot_chart env w h = create_screenshot_chart env' w h := by
  subst henv
  exact ⟨rfl, rfl, rfl, rfl⟩

/-- C8 witness: two renders of each view at 1290×2796 under `trivFontEnv`
coincide. -/
theorem c8_render_deterministic_witness :
    create_screenshot_tank_list trivFontEnv 1290 2796 =
      create_screenshot_tank_list trivFontEnv 1290 2796 ∧
    create_screenshot_analysis trivFontEnv 1290 2796 =
      create_screenshot_analysis trivFontEnv 1290 2796 ∧
    create_screenshot_measurement trivFontEnv 1290 2796 =
      create_screenshot_measurement trivFontEnv 1290 2796 ∧
    create_screenshot_chart trivFontEnv 1290 2796 =
      create_screenshot_chart trivFontEnv 1290 2796 :=
  c8_render_deterministic trivFontEnv trivFontEnv 1290 2796 rfl

/-- C9: for every requested size, `get_font` tries the first system font
path, then the second candidate path, then falls back to the built-in
default font; it is a total function (no font-loading failure escapes), in
both the bold and the regular chain. -/
theorem c9_font_fallback (env : FontEnv) (size : Int) :
    (env.loads "/System/Library/Fonts/Supplemental/Arial Bold.ttf" = true →
      get_font env size true =
        PFont.truetype "/System/Library/Fonts/Supplemental/Arial Bold.ttf" size) ∧
    (env.loads "/System/Library/Fonts/Supplemental/Arial Bold.ttf" = false →
     env.loads "/Library/Fonts/Arial Bold.ttf" = true →
      get_font env size true = PFont.truetype "/Library/Fonts/Arial Bold.ttf" size) ∧
    (env.loads "/System/Library/Fonts/Supplemental/Arial Bold.ttf" = false →
     env.loads "/Library/Fonts/Arial Bold.ttf" = false →
      get_font env size true = PFont.default) ∧
    (env.loads "/System/Library/Fonts/Supplemental/Arial.ttf" = true →
      get_font env size false =
        PFont.truetype "/System/Library/Fonts/Supplemental/Arial.ttf" size) ∧
    (env.loads "/System/Library/Fonts/Supplemental/Arial.ttf" = false →
     env.loads "/Library/Fonts/Arial.ttf" = true →
      get_font env size false = PFont.truetype "/Library/Fonts/Arial.ttf" size) ∧
    (env.loads "/System/Library/Fonts/Supplemental/Arial.ttf" = false →
     env.loads "/Library/Fonts/Arial.ttf" = false →
      get_font env size false = PFont.default) := by
  refine ⟨fun h1 => ?_, fun h1 h2 => ?_, fun h1 h2 => ?_,
    fun h1 => ?_, fun h1 h2 => ?_, fun h1 h2 => ?_⟩ <;>
    simp [get_font, h1]
  · simp [h2]
  · simp [h2]
  · simp [h2]
  · simp [h2]

/-- C9 witness: the three stages of the fallback chain, each at a concrete
environment and size. -/
theorem c9_font_fallback_witness :
    get_font boldFontEnv 40 true =
      PFont.truetype "/System/Library/Fonts/Supplemental/Arial Bold.ttf" 40 ∧
    get_font secondOnlyFontEnv 40 true =
      PFont.truetype "/Library/Fonts/Arial Bold.ttf" 40 ∧
    get_font trivFontEnv 40 true = PFont.default ∧
    get_font trivFontEnv 40 false = PFont.default :=
  ⟨(c9_font_fallback boldFontEnv 40).1 rfl,
   (c9_font_fallback secondOnlyFontEnv 40).2.1 rfl rfl,
   (c9_font_fallback trivFontEnv 40).2.2.1 rfl rfl,
   (c9_font_fallback trivFontEnv 40).2.2.2.2.2 rfl rfl⟩

end GeneratorTheorems

section ResizerTheorems

open ResizeScreenshots

/-- Every iteration of the per-target loop records an attempt for its
target, whatever the filesystem does. -/
theorem resize_one_attempt (env : FsEnv) (img : SImage) (dir view_name : String)
    (t : String × Nat × Nat) :
    Event.attempt (pathOf dir view_name t.1) ∈ (resize_one env img dir view_name t).1 := by
  rcases t with ⟨name, w, h⟩
  rcases ho : env.outcomeAt (pathOf dir view_name name) with _ | _ | ⟨vw, vh⟩
  · simp [resize_one, ho]
  · simp [resize_one, ho, SImage.resize]
  · simp only [resize_one, ho, SImage.resize]
    split <;> simp

/-- If the try-block for a target raises, the error is logged and the target
contributes nothing: no verification event and a zero count increment. -/
theorem resize_one_raise (env : FsEnv) (img : SImage) (dir view_name : String)
    (t : String × Nat × Nat)
    (hr : env.outcomeAt (pathOf dir view_name t.1) = TargetOutcome.raise) :
    Event.errLogged (pathOf dir view_name t.1) ∈ (resize_one env img dir view_name t).1 ∧
    Event.verified (pathOf dir view_name t.1) ∉ (resize_one env img dir view_name t).1 ∧
    (resize_one env img dir view_name t).2 = 0 := by
  rcases t with ⟨name, w, h⟩
  simp [resize_one, hr]

/-- If the save/reopen round-trip is faithful, the written file has exactly
the target size, verification passes, and the count increments. -/
theorem resize_one_ok (env : FsEnv) (img : SImage) (dir view_name : String)
    (t : String × Nat × Nat)
    (hok : env.outcomeAt (pathOf dir view_name t.1) = TargetOutcome.ok) :
    Event.wrote (pathOf dir view_name t.1) t.2.1 t.2.2 ∈
      (resize_one env img dir view_name t).1 ∧
    Event.verified (pathOf dir view_name t.1) ∈ (resize_one env img dir view_name t).1 ∧
    (resize_one env img dir view_name t).2 = 1 := by
  rcases t with ⟨name, w, h⟩
  simp [resize_one, hok, SImage.resize]

/-- The count increment of one iteration is 1 exactly when that iteration
verified its written output, and 0 otherwise. -/
theorem resize_one_count (env : FsEnv) (img : SImage) (dir view_name : String)
    (t : String × Nat × Nat) :
    (resize_one env img dir view_name t).2 =
      if Event.verified (pathOf dir view_name t.1) ∈ (resize_one env img dir view_name t).1
      then 1 else 0 := by
  rcases t with ⟨name, w, h⟩
  rcases ho : env.outcomeAt (pathOf dir view_name name) with _ | _ | ⟨vw, vh⟩
  · simp [resize_one, ho]
  · simp [resize_one, ho, SImage.resize]
  · simp only [resize_one, ho, SImage.resize]
    split <;> simp

/-- Any file written by one iteration is at that target output path and has
exactly the target registered dimensions. -/
theorem resize_one_wrote (env : FsEnv) (img : SImage) (dir view_name : String)
    (t : String × Nat × Nat) (p : String) (w h : Nat)
    (hmem : Event.wrote p w h ∈ (resize_one env img dir view_name t).1) :
    p = pathOf dir view_name t.1 ∧ w = t.2.1 ∧ h = t.2.2 := by
  rcases t with ⟨name, tw, th⟩
  revert hmem
  rcases ho : env.outcomeAt (pathOf dir view_name name) with _ | _ | ⟨vw, vh⟩
  · simp [resize_one, ho]
  · simp [resize_one, ho, SImage.resize]
  · simp only [resize_one, ho, SImage.resize]
    split <;> simp

/-- The events of the fold over the size table are the per-iteration events
in order. -/
theorem foldl_events (env : FsEnv) (img : SImage) (dir view_name : String)
    (l : List (String × Nat × Nat)) (evs : List Event) (n : Nat) :
    (l.foldl (foldStep env img dir view_name) (evs, n)).1 =
      evs ++ l.flatMap (fun t => (resize_one env img dir view_name t).1) := by
  induction l generalizing evs n with
  | nil => simp
  | cons a l ih => simp [foldStep, List.foldl_cons, ih]

/-- The count of the fold over the size table is the sum of the
per-iteration increments. -/
theorem foldl_count (env : FsEnv) (img : SImage) (dir view_name : String)
    (l : List (String × Nat × Nat)) (evs : List Event) (n : Nat) :
    (l.foldl (foldStep env img dir view_name) (evs, n)).2 =
      n + (l.map (fun t => (resize_one env img dir view_name t).2)).sum := by
  induction l generalizing evs n with
  | nil => simp
  | cons a l ih =>
    simp [foldStep, List.foldl_cons, ih]
    omega

/-- Once the batch is reached, the events of a run are the directory
creation followed by the per-target events in table order. -/
theorem resize_screenshot_events (env : FsEnv) (input_path : String)
    (output_dir : Option String) (view_name : String) (sz : Nat × Nat)
    (hex : env.inputExists input_path = true)
    (hdec : env.decode input_path = some sz) :
    (resize_screenshot env input_path output_dir view_name).events =
      Event.mkdirParents (output_dir.getD defaultOutputDir) ::
        SCREENSHOT_SIZES.flatMap (fun t =>
          (resize_one env ⟨sz.1, sz.2⟩ (output_dir.getD defaultOutputDir) view_name t).1) := by
  simp [resize_screenshot, hex, hdec, foldl_events]

/-- Once the batch is reached, the final success count is the sum of the
per-target increments. -/
theorem resize_screenshot_count (env : FsEnv) (input_path : String)
    (output_dir : Option String) (view_name : String) (sz : Nat × Nat)
    (hex : env.inputExists input_path = true)
    (hdec : env.decode input_path = some sz) :
    (resize_screenshot env input_path output_dir view_name).successCount =
      (SCREENSHOT_SIZES.map (fun t =>
        (resize_one env ⟨sz.1, sz.2⟩ (output_dir.getD defaultOutputDir) view_name t).2)).sum := by
  simp [resize_screenshot, hex, hdec, foldl_count]

/-- Once the batch is reached, the boolean result is the comparison of the
success counter with the table length. -/
theorem resize_screenshot_success (env : FsEnv) (input_path : String)
    (output_dir : Option String) (view_name : String) (sz : Nat × Nat)
    (hex : env.inputExists input_path = true)
    (hdec : env.decode input_path = some sz) :
    (resize_screenshot env input_path output_dir view_name).success =
      ((resize_screenshot env input_path output_dir view_name).successCount ==
        SCREENSHOT_SIZES.length) := by
  simp [resize_screenshot, hex, hdec]

/-- A sum of 0/1 indicator values over a list is the count of elements
satisfying the indicator. -/
theorem sum_map_eq_countP {α : Type} (f : α → Nat) (P : α → Bool) (l : List α)
    (h : ∀ a ∈ l, f a = if P a then 1 else 0) :
    (l.map f).sum = l.countP P := by
  induction l with
  | nil => simp
  | cons a l ih =>
    rw [List.map_cons, List.sum_cons, List.countP_cons,
      ih (fun b hb => h b (List.mem_cons_of_mem a hb)), h a (List.mem_cons_self a l)]
    by_cases hp : P a = true <;> simp [hp] <;> omega

/-- C4: for every input path that does not exist, and for every input file
that fails to decode, the resizer returns an unsuccessful result and performs
zero work: no directory is created, no target is attempted, and no output
file is written (the event list is empty). -/
theorem c4_abort_before_work (env : FsEnv) (input_path : String)
    (output_dir : Option String) (view_name : String) :
    (env.inputExists input_path = false →
      resize_screenshot env input_path output_dir view_name =
        { success := false, successCount := 0, events := [] }) ∧
    (env.decode input_path = none →
      resize_screenshot env input_path output_dir view_name =
        { success := false, successCount := 0, events := [] }) := by
  constructor
  · intro h
    simp [resize_screenshot, h]
  · intro h
    by_cases he : env.inputExists input_path <;> simp [resize_screenshot, h, he]

/-- C4 witness: against a filesystem without the input file, the resizer
returns failure with an empty event list. -/
theorem c4_abort_before_work_witness :
    resize_screenshot missingEnv "missing.png" none "screenshot" =
      { success := false, successCount := 0, events := [] } :=
  (c4_abort_before_work missingEnv "missing.png" none "screenshot").1 rfl

/-- C1: once the batch is reached, every registered target is attempted; a
target whose resize/write/verify step raises is logged and skipped (it has
no verification event and contributes nothing to the count); the final
success count equals the number of registered targets whose written output
was reopened and verified; and with exactly one raising target while every
other target round-trips faithfully, the other three complete and the
success count is 3. -/
theorem c1_error_isolation (env : FsEnv) (input_path : String)
    (output_dir : Option String) (view_name : String) (sz : Nat × Nat)
    (hex : env.inputExists input_path = true)
    (hdec : env.decode input_path = some sz) :
    (∀ t ∈ SCREENSHOT_SIZES,
      Event.attempt (pathOf (output_dir.getD defaultOutputDir) view_name t.1) ∈
        (resize_screenshot env input_path output_dir view_name).events) ∧
    (∀ t ∈ SCREENSHOT_SIZES,
      env.outcomeAt (pathOf (output_dir.getD defaultOutputDir) view_name t.1) =
          TargetOutcome.raise →
        Event.errLogged (pathOf (output_dir.getD defaultOutputDir) view_name t.1) ∈
          (resize_screenshot env input_path output_dir view_name).events ∧
        Event.verified (pathOf (output_dir.getD defaultOutputDir) view_name t.1) ∉
          (resize_one env ⟨sz.1, sz.2⟩ (output_dir.getD defaultOutputDir) view_name t).1) ∧
    ((resize_screenshot env input_path output_dir view_name).successCount =
      SCREENSHOT_SIZES.countP (fun t =>
        decide (Event.verified (pathOf (output_dir.getD defaultOutputDir) view_name t.1) ∈
          (resize_one env ⟨sz.1, sz.2⟩ (output_dir.getD defaultOutputDir) view_name t).1))) ∧
    (∀ t0 ∈ SCREENSHOT_SIZES,
      env.outcomeAt (pathOf (output_dir.getD defaultOutputDir) view_name t0.1) =
          TargetOutcome.raise →
      (∀ t ∈ SCREENSHOT_SIZES, t ≠ t0 →
        env.outcomeAt (pathOf (output_dir.getD defaultOutputDir) view_name t.1) =
          TargetOutcome.ok) →
      (resize_screenshot env input_path output_dir view_name).successCount = 3) := by
  have hev := resize_screenshot_events env input_path output_dir view_name sz hex hdec
  have hcnt := resize_screenshot_count env input_path output_dir view_name sz hex hdec
  refine ⟨?_, ?_, ?_, ?_⟩
  · intro t ht
    rw [hev]
    exact List.mem_cons_of_mem _ (List.mem_flatMap.2
      ⟨t, ht, resize_one_attempt env ⟨sz.1, sz.2⟩ (output_dir.getD defaultOutputDir) view_name t⟩)
  · intro t ht hr
    refine ⟨?_, (resize_one_raise env ⟨sz.1, sz.2⟩ (output_dir.getD defaultOutputDir)
      view_name t hr).2.1⟩
    rw [hev]
    exact List.mem_cons_of_mem _ (List.mem_flatMap.2
      ⟨t, ht, (resize_one_raise env ⟨sz.1, sz.2⟩ (output_dir.getD defaultOutputDir)
        view_name t hr).1⟩)
  · rw [hcnt]
    refine sum_map_eq_countP _ _ _ (fun t ht => ?_)
    rw [resize_one_count env ⟨sz.1, sz.2⟩ (output_dir.getD defaultOutputDir) view_name t]
    by_cases hv : Event.verified (pathOf (output_dir.getD defaultOutputDir) view_name t.1) ∈
        (resize_one env ⟨sz.1, sz.2⟩ (output_dir.getD defaultOutputDir) view_name t).1 <;>
      simp [hv]
  · intro t0 ht0 hraise hothers
    rw [hcnt]
    simp only [SCREENSHOT_SIZES, List.mem_cons, List.not_mem_nil, or_false] at ht0
    rcases ht0 with rfl | rfl | rfl | rfl
    · have e1 := (resize_one_raise env ⟨sz.1, sz.2⟩ (output_dir.getD defaultOutputDir)
        view_name ("iphone_67_portrait", 1284, 2778) hraise).2.2
      have e2 := (resize_one_ok env ⟨sz.1, sz.2⟩ (output_dir.getD defaultOutputDir)
        view_name ("iphone_67_landscape", 2778, 1284)
        (hothers _ (by simp [SCREENSHOT_SIZES]) (by decide))).2.2
      have e3 := (resize_one_ok env ⟨sz.1, sz.2⟩ (output_dir.getD defaultOutputDir)
        view_name ("iphone_65_portrait", 1242, 2688)
        (hothers _ (by simp [SCREENSHOT_SIZES]) (by decide))).2.2
      have e4 := (resize_one_ok env ⟨sz.1, sz.2⟩ (output_dir.getD defaultOutputDir)
        view_name ("iphone_65_landscape", 2688, 1242)
        (hothers _ (by simp [SCREENSHOT_SIZES]) (by decide))).2.2
      simp [SCREENSHOT_SIZES, e1, e2, e3, e4]
    · have e1 := (resize_one_ok env ⟨sz.1, sz.2⟩ (output_dir.getD defaultOutputDir)
        view_name ("iphone_67_portrait", 1284, 2778)
        (hothers _ (by simp [SCREENSHOT_SIZES]) (by decide))).2.2
      have e2 := (resize_one_raise env ⟨sz.1, sz.2⟩ (output_dir.getD defaultOutputDir)
        view_name ("iphone_67_landscape", 2778, 1284) hraise).2.2
      have e3 := (resize_one_ok env ⟨sz.1, sz.2⟩ (output_dir.getD defaultOutputDir)
        view_name ("iphone_65_portrait", 1242, 2688)
        (hothers _ (by simp [SCREENSHOT_SIZES]) (by decide))).2.2
      have e4 := (resize_one_ok env ⟨sz.1, sz.2⟩ (output_dir.getD defaultOutputDir)
        view_name ("iphone_65_landscape", 2688, 1242)
        (hothers _ (by simp [SCREENSHOT_SIZES]) (by decide))).2.2
      simp [SCREENSHOT_SIZES, e1, e2, e3, e4]
    · have e1 := (resize_one_ok env ⟨sz.1, sz.2⟩ (output_dir.getD defaultOutputDir)
        view_name ("iphone_67_portrait", 1284, 2778)
        (hothers _ (by simp [SCREENSHOT_SIZES]) (by decide))).2.2
      have e2 := (resize_one_ok env ⟨sz.1, sz.2⟩ (output_dir.getD defaultOutputDir)
        view_name ("iphone_67_landscape", 2778, 1284)
        (hothers _ (by simp [SCREENSHOT_SIZES]) (by decide))).2.2
      have e3 := (resize_one_raise env ⟨sz.1, sz.2⟩ (output_dir.getD defaultOutputDir)
        view_name ("iphone_65_portrait", 1242, 2688) hraise).2.2
      have e4 := (resize_one_ok env ⟨sz.1, sz.2⟩ (output_dir.getD defaultOutputDir)
        view_name ("iphone_65_landscape", 2688, 1242)
        (hothers _ (by simp [SCREENSHOT_SIZES]) (by decide))).2.2
      simp [SCREENSHOT_SIZES, e1, e2, e3, e4]
    · have e1 := (resize_one_ok env ⟨sz.1, sz.2⟩ (output_dir.getD defaultOutputDir)
        view_name ("iphone_67_portrait", 1284, 2778)
        (hothers _ (by simp [SCREENSHOT_SIZES]) (by decide))).2.2
      have e2 := (resize_one_ok env ⟨sz.1, sz.2⟩ (output_dir.getD defaultOutputDir)
        view_name ("iphone_67_landscape", 2778, 1284)
        (hothers _ (by simp [SCREENSHOT_SIZES]) (by decide))).2.2
      have e3 := (resize_one_ok env ⟨sz.1, sz.2⟩ (output_dir.getD defaultOutputDir)
        view_name ("iphone_65_portrait", 1242, 2688)
        (hothers _ (by simp [SCREENSHOT_SIZES]) (by decide))).2.2
      have e4 := (resize_one_raise env ⟨sz.1, sz.2⟩ (output_dir.getD defaultOutputDir)
        view_name ("iphone_65_landscape", 2688, 1242) hraise).2.2
      simp [SCREENSHOT_SIZES, e1, e2, e3, e4]

/-- C1 witness: four registered targets of which exactly the
`iphone_67_portrait` write raises give a final success count of 3. -/
theorem c1_error_isolation_witness :
    (resize_screenshot oneFailEnv "input.png" none "screenshot").successCount = 3 := by
  have h := c1_error_isolation oneFailEnv "input.png" none "screenshot" (640, 480) rfl rfl
  refine h.2.2.2 ("iphone_67_portrait", 1284, 2778) (by simp [SCREENSHOT_SIZES])
    (by simp [oneFailEnv]) ?_
  intro t ht hne
  simp only [SCREENSHOT_SIZES, List.mem_cons, List.not_mem_nil, or_false] at ht
  rcases ht with rfl | rfl | rfl | rfl
  · exact absurd rfl hne
  · simp [oneFailEnv, pathOf, defaultOutputDir]
  · simp [oneFailEnv, pathOf, defaultOutputDir]
  · simp [oneFailEnv, pathOf, defaultOutputDir]

/-- C2: `iphone_67_portrait` is registered at 1284×2778; for every input
image and every registered target, the resized output produced for that
target has exactly the registered (width, height) regardless of the input
dimensions, every file the loop writes for a target carries exactly the
registered dimensions, a faithful save/reopen round-trip verifies, and
resizing an image already at the target dimensions to the same target
preserves its dimensions (idempotence on dimensions). -/
theorem c2_target_dimensions :
    ("iphone_67_portrait", 1284, 2778) ∈ SCREENSHOT_SIZES ∧
    (∀ (img : SImage) (name : String) (w h : Nat), (name, w, h) ∈ SCREENSHOT_SIZES →
      (SImage.resize img w h).width = w ∧ (SImage.resize img w h).height = h) ∧
    (∀ (env : FsEnv) (img : SImage) (dir view_name : String)
        (t : String × Nat × Nat), t ∈ SCREENSHOT_SIZES →
      ∀ p w h, Event.wrote p w h ∈ (resize_one env img dir view_name t).1 →
        w = t.2.1 ∧ h = t.2.2) ∧
    (∀ (env : FsEnv) (img : SImage) (dir view_name : String)
        (t : String × Nat × Nat), t ∈ SCREENSHOT_SIZES →
      env.outcomeAt (pathOf dir view_name t.1) = TargetOutcome.ok →
        Event.verified (pathOf dir view_name t.1) ∈ (resize_one env img dir view_name t).1) ∧
    (∀ (img : SImage) (name : String) (w h : Nat), (name, w, h) ∈ SCREENSHOT_SIZES →
      img.width = w → img.height = h →
      (SImage.resize img w h).width = img.width ∧
      (SImage.resize img w h).height = img.height) := by
  refine ⟨by simp [SCREENSHOT_SIZES], fun img name w h _ => ⟨rfl, rfl⟩, ?_, ?_, ?_⟩
  · intro env img dir view_name t _ p w h hmem
    exact (resize_one_wrote env img dir view_name t p w h hmem).2
  · intro env img dir view_name t _ hok
    exact (resize_one_ok env img dir view_name t hok).2.1
  · intro img name w h _ hw hh
    exact ⟨by simp [SImage.resize, hw], by simp [SImage.resize, hh]⟩

/-- C2 witness: a 640×480 input resized to the `iphone_67_portrait` target
measures 1284×2778, the faithful round-trip verifies, and resizing an
already-1284×2778 image again preserves its dimensions. -/
theorem c2_target_dimensions_witness :
    (SImage.resize ⟨640, 480⟩ 1284 2778).width = 1284 ∧
    (SImage.resize ⟨640, 480⟩ 1284 2778).height = 2778 ∧
    Event.verified (pathOf defaultOutputDir "screenshot" "iphone_67_portrait") ∈
      (resize_one allOkEnv ⟨640, 480⟩ defaultOutputDir "screenshot"
        ("iphone_67_portrait", 1284, 2778)).1 ∧
    (SImage.resize ⟨1284, 2778⟩ 1284 2778).width = (⟨1284, 2778⟩ : SImage).width ∧
    (SImage.resize ⟨1284, 2778⟩ 1284 2778).height = (⟨1284, 2778⟩ : SImage).height := by
  have h := c2_target_dimensions
  have hmem : ("iphone_67_portrait", (1284 : Nat), (2778 : Nat)) ∈ SCREENSHOT_SIZES := by
    simp [SCREENSHOT_SIZES]
  refine ⟨(h.2.1 ⟨640, 480⟩ "iphone_67_portrait" 1284 2778 hmem).1,
    (h.2.1 ⟨640, 480⟩ "iphone_67_portrait" 1284 2778 hmem).2,
    h.2.2.2.1 allOkEnv ⟨640, 480⟩ defaultOutputDir "screenshot"
      ("iphone_67_portrait", 1284, 2778) hmem rfl,
    (h.2.2.2.2 ⟨1284, 2778⟩ "iphone_67_portrait" 1284 2778 hmem rfl rfl).1,
    (h.2.2.2.2 ⟨1284, 2778⟩ "iphone_67_portrait" 1284 2778 hmem rfl rfl).2⟩

/-- C5: for every invocation that reaches the batch, the process exit code
is 0 exactly when the success count equals the number of registered targets
and 1 otherwise, and the top-level result is the boolean
`success_count == len(SCREENSHOT_SIZES)` derived from the success counter. -/
theorem c5_exit_code (env : FsEnv) (argv : List String) (sz : Nat × Nat)
    (hlen : 2 ≤ argv.length)
    (hex : env.inputExists (argv.getD 1 "") = true)
    (hdec : env.decode (argv.getD 1 "") = some sz) :
    ∃ r : ResizeResult, (main env argv).ran = some r ∧
      r.success = (r.successCount == SCREENSHOT_SIZES.length) ∧
      ((main env argv).exitCode = 0 ↔ r.successCount = SCREENSHOT_SIZES.length) ∧
      ((main env argv).exitCode = 1 ↔ r.successCount ≠ SCREENSHOT_SIZES.length) := by
  have h2 : ¬ argv.length < 2 := by omega
  have hsucc := resize_screenshot_success env (argv.getD 1 "")
    (if 3 < argv.length then some (argv.getD 3 "") else none)
    (if 2 < argv.length then argv.getD 2 "" else "screenshot") sz hex hdec
  refine ⟨resize_screenshot env (argv.getD 1 "")
      (if 3 < argv.length then some (argv.getD 3 "") else none)
      (if 2 < argv.length then argv.getD 2 "" else "screenshot"),
    by simp only [main, if_neg h2], hsucc, ?_, ?_⟩
  · simp only [main, if_neg h2]
    rw [hsucc]
    by_cases hc : (resize_screenshot env (argv.getD 1 "")
        (if 3 < argv.length then some (argv.getD 3 "") else none)
        (if 2 < argv.length then argv.getD 2 "" else "screenshot")).successCount =
          SCREENSHOT_SIZES.length <;>
      simp [hc]
  · simp only [main, if_neg h2]
    rw [hsucc]
    by_cases hc : (resize_screenshot env (argv.getD 1 "")
        (if 3 < argv.length then some (argv.getD 3 "") else none)
        (if 2 < argv.length then argv.getD 2 "" else "screenshot")).successCount =
          SCREENSHOT_SIZES.length <;>
      simp [hc]

/-- C5 witness: a fully succeeding run with a two-element argument vector. -/
theorem c5_exit_code_witness :
    ∃ r : ResizeResult, (main allOkEnv ["prog", "in.png"]).ran = some r ∧
      r.success = (r.successCount == SCREENSHOT_SIZES.length) ∧
      ((main allOkEnv ["prog", "in.png"]).exitCode = 0 ↔
        r.successCount = SCREENSHOT_SIZES.length) ∧
      ((main allOkEnv ["prog", "in.png"]).exitCode = 1 ↔
        r.successCount ≠ SCREENSHOT_SIZES.length) :=
  c5_exit_code allOkEnv ["prog", "in.png"] (640, 480) (by decide) rfl rfl

/-- C10: when the CLI is given only an input path, the view name defaults to
"screenshot" and the output directory defaults to
`assets/upload-store/real-screenshots`; the output directory is created
(with parents) before any target is written (it is the first event), every
target is attempted at `<size_name>_<view_name>.png` under that directory,
and every written file is at such a path. -/
theorem c10_cli_defaults (env : FsEnv) (prog input_file : String) (sz : Nat × Nat)
    (hex : env.inputExists input_file = true)
    (hdec : env.decode input_file = some sz) :
    (main env [prog, input_file]).ran =
      some (resize_screenshot env input_file none "screenshot") ∧
    (resize_screenshot env input_file none "screenshot").events.head? =
      some (Event.mkdirParents defaultOutputDir) ∧
    (∀ t ∈ SCREENSHOT_SIZES,
      Event.attempt (pathOf defaultOutputDir "screenshot" t.1) ∈
        (resize_screenshot env input_file none "screenshot").events) ∧
    (∀ p w h,
      Event.wrote p w h ∈ (resize_screenshot env input_file none "screenshot").events →
      ∃ t ∈ SCREENSHOT_SIZES, p = pathOf defaultOutputDir "screenshot" t.1 ∧
        w = t.2.1 ∧ h = t.2.2) := by
  have hev := resize_screenshot_events env input_file none "screenshot" sz hex hdec
  simp only [Option.getD_none] at hev
  refine ⟨?_, ?_, ?_, ?_⟩
  · simp [main]
  · rw [hev]
    rfl
  · intro t ht
    rw [hev]
    exact List.mem_cons_of_mem _ (List.mem_flatMap.2
      ⟨t, ht, resize_one_attempt env ⟨sz.1, sz.2⟩ defaultOutputDir "screenshot" t⟩)
  · intro p w h hw
    rw [hev] at hw
    rcases List.mem_cons.1 hw with heq | hmemf
    · simp at heq
    · rcases List.mem_flatMap.1 hmemf with ⟨t, ht, hmem⟩
      obtain ⟨hp, hww, hhh⟩ :=
        resize_one_wrote env ⟨sz.1, sz.2⟩ defaultOutputDir "screenshot" t p w h hmem
      exact ⟨t, ht, hp, hww, hhh⟩

/-- C10 witness: a concrete two-argument invocation uses the default view
name and output directory, creating the directory first. -/
theorem c10_cli_defaults_witness :
    (main allOkEnv ["resize-screenshots.py", "input.png"]).ran =
      some (resize_screenshot allOkEnv "input.png" none "screenshot") ∧
    (resize_screenshot allOkEnv "input.png" none "screenshot").events.head? =
      some (Event.mkdirParents defaultOutputDir) :=
  ⟨(c10_cli_defaults allOkEnv "resize-screenshots.py" "input.png" (640, 480) rfl rfl).1,
   (c10_cli_defaults allOkEnv "resize-screenshots.py" "input.png" (640, 480) rfl rfl).2.1⟩

end ResizerTheorems
